import Mathlib

/-!
Verification of `smart-volume-adjust.py` (pulseaudio-smart-volume-adjust).

The script is a thin orchestration layer over the PulseAudio control API
(`pulsectl`), a peak-sample probe, and a desktop notification service.  We
shallowly embed it as pure Lean functions:

* The PulseAudio connection (`Pulse`) is modelled by a `PulseEnv` record of
  environment functions: the list of sink inputs, the client-name lookup
  (`pulse.client_info(c).name`), the peak-sample probe, and default-sink
  resolution (`pulse.get_sink_by_name(pulse.server_info().default_sink_name)`).
* Volumes (`volume.value_flat` in the source) are modelled as rationals.
* Regex patterns are modelled by their `re.match` behaviour, i.e. as boolean
  predicates on the client name.
* Side effects (setting volumes, printing, showing notifications, writing the
  notification-id file) are returned as an explicit list of `Effect`s, in the
  order the source performs them.
* The filesystem read done by `notify` is an environment function
  `fs : String -> Option String` (`none` models `FileNotFoundError`), and the
  notification id the server would assign to a freshly shown notification is
  an environment value `new_id` (`n.get_property("id")` after `n.show()`).
-/

/-- Sink input record as used by the script: PulseAudio index, client handle,
corked flag, and flat volume (`volume.value_flat`, modelled as a rational). -/
structure PulseSinkInputInfo where
  index : Nat
  client : Nat
  corked : Bool
  volume : ℚ
deriving DecidableEq, Repr

/-- Sink (output device) record as used by the script: index, description and
flat volume. -/
structure PulseSinkInfo where
  index : Nat
  description : String
  volume : ℚ
deriving DecidableEq, Repr

/-- Environment functions provided by the PulseAudio connection `Pulse()`. -/
structure PulseEnv where
  sink_input_list : List PulseSinkInputInfo
  client_name : Nat → String
  get_peak_sample : ℚ → Nat → ℚ
  default_sink_name : String
  get_sink_by_name : String → PulseSinkInfo

/-- A sink-input regex pattern, modelled by its `re.match` behaviour on the
client name: `p name = true` iff `re.match(p, name)` is a match. -/
abbrev SinkInputPattern := String → Bool

/-- One pass of the inner loop of `sink_inputs_filter` for a fixed pattern.
The source iterates over a copy (`enumerate(sink_inputs[:])`), appends each
matching sink input to `sink_inputs_filtered`, and removes it from the live
list with `sink_inputs.pop(idx - removed_count)`.  The arguments are: the
match test `m`, the remaining part of the snapshot copy being iterated, the
live `sink_inputs` list, the accumulated `sink_inputs_filtered`, the running
index `idx` into the copy, and `removed_count`. -/
def filter_pass (m : PulseSinkInputInfo → Bool) :
    List PulseSinkInputInfo → List PulseSinkInputInfo → List PulseSinkInputInfo →
    Nat → Nat → List PulseSinkInputInfo × List PulseSinkInputInfo
  | [], sink_inputs, filtered, _, _ => (sink_inputs, filtered)
  | si :: rest, sink_inputs, filtered, idx, removed =>
      if m si then
        filter_pass m rest (sink_inputs.eraseIdx (idx - removed)) (filtered ++ [si])
          (idx + 1) (removed + 1)
      else
        filter_pass m rest sink_inputs filtered (idx + 1) removed

/-- Body of the outer loop of `sink_inputs_filter`: one pattern is processed
against the current state (live `sink_inputs` list, accumulated filtered
list), starting the pass on a fresh copy with `idx = removed_count = 0`. -/
def filter_step (pulse : PulseEnv)
    (st : List PulseSinkInputInfo × List PulseSinkInputInfo)
    (pat : SinkInputPattern) : List PulseSinkInputInfo × List PulseSinkInputInfo :=
  filter_pass (fun si => pat (pulse.client_name si.client)) st.1 st.1 st.2 0 0

/-- Embedding of `sink_inputs_filter`: fold the per-pattern pass over the
pattern list, starting from `pulse.sink_input_list()` and an empty filtered
list, and return the filtered list. -/
def sink_inputs_filter (pulse : PulseEnv)
    (sink_inputs_patterns : List SinkInputPattern) : List PulseSinkInputInfo :=
  (sink_inputs_patterns.foldl (filter_step pulse) (pulse.sink_input_list, [])).2

/-- Specification-side description of the filter, transcribed from the spec:
streams matching the first pattern, in original stream order, then the
remaining streams matching the second pattern, and so on; streams matching no
pattern are absent. -/
def sink_inputs_filter_spec (pulse : PulseEnv) :
    List SinkInputPattern → List PulseSinkInputInfo → List PulseSinkInputInfo
  | [], _ => []
  | pat :: pats, streams =>
      streams.filter (fun s => pat (pulse.client_name s.client)) ++
      sink_inputs_filter_spec pulse pats
        (streams.filter (fun s => !pat (pulse.client_name s.client)))

lemma eraseIdx_append_cons {α : Type} (pre : List α) (x : α) (rest : List α) :
    (pre ++ x :: rest).eraseIdx pre.length = pre ++ rest := by
  induction pre with
  | nil => rfl
  | cons a pre ih => simpa [List.eraseIdx] using ih

lemma filter_pass_spec (m : PulseSinkInputInfo → Bool) :
    ∀ (rest pre filtered : List PulseSinkInputInfo) (removed : Nat),
      filter_pass m rest (pre ++ rest) filtered (pre.length + removed) removed =
        (pre ++ rest.filter (fun s => !m s), filtered ++ rest.filter m) := by
  intro rest
  induction rest with
  | nil => intro pre filtered removed; simp [filter_pass]
  | cons s rest ih =>
      intro pre filtered removed
      cases h : m s with
      | true =>
          rw [filter_pass]
          simp only [h, if_true]
          rw [Nat.add_sub_cancel, eraseIdx_append_cons]
          have harith : pre.length + removed + 1 = pre.length + (removed + 1) := by omega
          rw [harith, ih pre (filtered ++ [s]) (removed + 1)]
          simp [List.filter_cons, h, List.append_assoc]
      | false =>
          rw [filter_pass]
          simp only [h, Bool.false_eq_true, if_false]
          have harith : pre.length + removed + 1 = (pre ++ [s]).length + removed := by
            simp; omega
          have hlist : pre ++ s :: rest = (pre ++ [s]) ++ rest := by simp
          rw [harith, hlist, ih (pre ++ [s]) filtered removed]
          simp [List.filter_cons, h, List.append_assoc]

lemma filter_step_eq (pulse : PulseEnv) (si fil : List PulseSinkInputInfo)
    (pat : SinkInputPattern) :
    filter_step pulse (si, fil) pat =
      (si.filter (fun s => !pat (pulse.client_name s.client)),
       fil ++ si.filter (fun s => pat (pulse.client_name s.client))) := by
  have h := filter_pass_spec (fun s => pat (pulse.client_name s.client)) si [] fil 0
  simpa [filter_step] using h

lemma foldl_filter_step (pulse : PulseEnv) :
    ∀ (pats : List SinkInputPattern) (si fil : List PulseSinkInputInfo),
      (pats.foldl (filter_step pulse) (si, fil)).2 =
        fil ++ sink_inputs_filter_spec pulse pats si := by
  intro pats
  induction pats with
  | nil => intro si fil; simp [sink_inputs_filter_spec]
  | cons p ps ih =>
      intro si fil
      rw [List.foldl_cons, filter_step_eq, ih, sink_inputs_filter_spec]
      simp [List.append_assoc]

/-- C1: `sink_inputs_filter` returns exactly the streams whose client name
matches some pattern, ordered by pattern priority: all streams matching the
first pattern (in original stream order) come first, then the remaining
streams matching the second pattern, and so on; streams matching no pattern
are absent.  Stated as equality with `sink_inputs_filter_spec`, the direct
transcription of that description. -/
theorem sink_inputs_filter_priority_order (pulse : PulseEnv)
    (patterns : List SinkInputPattern) :
    sink_inputs_filter pulse patterns =
      sink_inputs_filter_spec pulse patterns pulse.sink_input_list := by
  unfold sink_inputs_filter
  rw [foldl_filter_step]
  simp

lemma mem_sink_inputs_filter_spec (pulse : PulseEnv) :
    ∀ (pats : List SinkInputPattern) (l : List PulseSinkInputInfo)
      (x : PulseSinkInputInfo), x ∈ sink_inputs_filter_spec pulse pats l → x ∈ l := by
  intro pats
  induction pats with
  | nil => intro l x h; simp [sink_inputs_filter_spec] at h
  | cons p ps ih =>
      intro l x h
      rw [sink_inputs_filter_spec] at h
      rcases List.mem_append.1 h with h1 | h2
      · exact List.mem_of_mem_filter h1
      · exact List.mem_of_mem_filter (ih _ _ h2)

lemma nodup_sink_inputs_filter_spec (pulse : PulseEnv) :
    ∀ (pats : List SinkInputPattern) (l : List PulseSinkInputInfo),
      l.Nodup → (sink_inputs_filter_spec pulse pats l).Nodup := by
  intro pats
  induction pats with
  | nil => intro l _; simp [sink_inputs_filter_spec]
  | cons p ps ih =>
      intro l hl
      rw [sink_inputs_filter_spec]
      refine List.Nodup.append (hl.filter _) (ih _ (hl.filter _)) ?_
      intro x hx hx2
      have h1 : p (pulse.client_name x.client) = true := (List.mem_filter.1 hx).2
      have h2 : x ∈ l.filter (fun s => !p (pulse.client_name s.client)) :=
        mem_sink_inputs_filter_spec pulse ps _ x hx2
      have h3 : (!p (pulse.client_name x.client)) = true := (List.mem_filter.1 h2).2
      rw [h1] at h3
      exact absurd h3 (by simp)

/-- C10: in the list returned by `sink_inputs_filter`, every stream occurs at
most once (assuming the sink-input list itself has no duplicates), even when
its client name matches several patterns: a stream is removed from the
candidate pool at its first match. -/
theorem sink_inputs_filter_nodup (pulse : PulseEnv)
    (patterns : List SinkInputPattern) (h : pulse.sink_input_list.Nodup) :
    (sink_inputs_filter pulse patterns).Nodup := by
  unfold sink_inputs_filter
  rw [foldl_filter_step]
  simpa using nodup_sink_inputs_filter_spec pulse patterns _ h

/-- Embedding of `sink_input_with_sound`: return the first sink input in the
priority list that is not corked and for which the 0.09-second peak-sample
probe (`pulse.get_peak_sample(None, 0.09, sink_input.index)`) is truthy,
i.e. nonzero; otherwise `None`. -/
def sink_input_with_sound (pulse : PulseEnv) :
    List PulseSinkInputInfo → Option PulseSinkInputInfo
  | [] => none
  | si :: rest =>
      if si.corked = false then
        if pulse.get_peak_sample (9 / 100) si.index ≠ 0 then some si
        else sink_input_with_sound pulse rest
      else sink_input_with_sound pulse rest

/-- Notification text as constructed in `change_volume`: either the relative
form `f"{volume_change:+.2f} for {name}"` or the absolute form
`f"{volume:.0%} for {name}"`.  The numeric rendering is kept structured; no
claim depends on the exact formatted characters. -/
inductive NotifText where
  | relative (delta : ℚ) (name : String)
  | absolute (volume : ℚ) (name : String)
deriving DecidableEq, Repr

/-- Observable side effects of the script, in source order: volume-setting
calls on the PulseAudio connection, the verbose print in `change_volume`
(kept structured), stderr prints, the two verbose debug prints inside
`notify`, showing a notification (with the id property set or not, and the
progress-bar hint set or not), and writing the notification-id file. -/
inductive Effect where
  | setSinkInputVolume (index : Nat) (volume : ℚ)
  | setSinkVolume (index : Nat) (volume : ℚ)
  | printChange (kind : String) (name : String) (delta new_volume : ℚ)
  | printErr (msg : String)
  | printNotifyIdFile (id_file : Option String)
  | printNotifyId (id : Option Int)
  | showNotification (id : Option Int) (title : String) (text : NotifText)
      (progress : Option Int)
  | writeFile (path content : String)
deriving DecidableEq, Repr

/-- Python `int(s)` on the contents of the notification-id file: optional
surrounding whitespace, optional sign, decimal digits.  (Digit-group
underscores accepted by Python are not modelled; the file only ever holds
`str(id)` values.) -/
def trimChars (cs : List Char) : List Char :=
  ((cs.dropWhile Char.isWhitespace).reverse.dropWhile Char.isWhitespace).reverse

def digitsToNat (cs : List Char) : Nat :=
  cs.foldl (fun a c => 10 * a + (c.toNat - 48)) 0

def digitsToNatOpt (cs : List Char) : Option Nat :=
  if cs ≠ [] ∧ cs.all Char.isDigit then some (digitsToNat cs) else none

def parsePyInt (s : String) : Option Int :=
  match trimChars s.toList with
  | '-' :: rest => (digitsToNatOpt rest).map (fun n => -(n : Int))
  | '+' :: rest => (digitsToNatOpt rest).map (fun n => (n : Int))
  | rest => (digitsToNatOpt rest).map (fun n => (n : Int))

/-- Python truthiness of an optional integer (`if notification_id:` and
`if progress:` in the source): `None` and `0` are falsy. -/
def optIntTruthy : Option Int → Bool
  | none => false
  | some i => i != 0

/-- Warning printed by `notify` when importing the notification library
fails (`ModuleNotFoundError`). -/
def notifyWarnMsg : String :=
  "Sorry, something went wrong with the notification. Are you using Gtk 4.0?"

/-- Reading the notification id inside `notify`: `int(Path(f).read_text())`
with `FileNotFoundError` silently ignored and `ValueError` logged to stderr.
Returns the id (if any) and the print effects produced while reading. -/
def read_notification_id (fs : String → Option String) :
    Option String → Option Int × List Effect
  | none => (none, [])
  | some f =>
      match fs f with
      | none => (none, [])
      | some contents =>
          match parsePyInt contents with
          | some i => (some i, [])
          | none => (none, [Effect.printErr ("notification id file malformated: " ++ f)])

/-- Embedding of `notify`.  `gi` tells whether the notification library
imports successfully; if not, a warning is printed and the function returns.
Otherwise: optional verbose print of the id file, the id is read from the
file (malformed contents logged, missing file ignored), optional verbose
print of the id, the notification is shown (with the id property set only
for a known truthy id, and the progress hint set only for truthy progress),
and when no truthy id was known and an id file was given, the freshly
assigned id `new_id` is written to the file as plain text. -/
def notify (gi : Bool) (fs : String → Option String) (new_id : Int)
    (title : String) (text : NotifText) (notification_id_file : Option String)
    (verbose : Bool) (progress : Option Int) : List Effect :=
  if gi = false then [Effect.printErr notifyWarnMsg]
  else
    let r := read_notification_id fs notification_id_file
    let notification_id := r.1
    (if verbose then [Effect.printNotifyIdFile notification_id_file] else []) ++
    r.2 ++
    (if verbose then [Effect.printNotifyId notification_id] else []) ++
    [Effect.showNotification
      (if optIntTruthy notification_id then notification_id else none) title text
      (if optIntTruthy progress then progress else none)] ++
    (match notification_id_file with
     | some f =>
         if optIntTruthy notification_id then []
         else [Effect.writeFile f (toString new_id)]
     | none => [])

/-- Python `int()` truncation toward zero of a rational (used for the
progress-bar value `int(100 / 2 * value_flat)`). -/
def ratTrunc (q : ℚ) : Int := Int.tdiv q.num (q.den : Int)

/-- Fixed temporary path of the notification-id file for a sink input. -/
def sink_input_id_file (index : Nat) : String :=
  "/tmp/smart-volume-adjust-sinkinput-" ++ toString index

/-- Fixed temporary path of the notification-id file for a sink. -/
def sink_id_file (index : Nat) : String :=
  "/tmp/smart-volume-adjust-sink-" ++ toString index

/-- Embedding of `change_volume`.  With a selected sink input: add the delta
to its flat volume, set the new volume unless `dry`, optionally print, and
optionally notify (with the absolute text and per-index id file only when
`notify_absolute`).  With no sink input and `default_to_sink`: same for the
default sink.  Otherwise do nothing. -/
def change_volume (pulse : PulseEnv) (gi : Bool) (fs : String → Option String)
    (new_id : Int) (volume_change : ℚ) (sink_input : Option PulseSinkInputInfo)
    (default_to_sink notify_ notify_absolute verbose dry : Bool) : List Effect :=
  match sink_input with
  | some si =>
      let name := pulse.client_name si.client
      let new_volume := si.volume + volume_change
      (if dry then [] else [Effect.setSinkInputVolume si.index new_volume]) ++
      (if verbose then [Effect.printChange "Sink Input" name volume_change new_volume]
       else []) ++
      (if notify_ then
        notify gi fs new_id "Sink Input Volume"
          (if notify_absolute then NotifText.absolute new_volume name
           else NotifText.relative volume_change name)
          (if notify_absolute then some (sink_input_id_file si.index) else none)
          verbose
          (some (ratTrunc (100 / 2 * new_volume)))
       else [])
  | none =>
      if default_to_sink then
        let current_sink := pulse.get_sink_by_name pulse.default_sink_name
        let new_volume := current_sink.volume + volume_change
        (if dry then [] else [Effect.setSinkVolume current_sink.index new_volume]) ++
        (if verbose then
          [Effect.printChange "Sink" current_sink.description volume_change new_volume]
         else []) ++
        (if notify_ then
          notify gi fs new_id "Sink Volume"
            (if notify_absolute then NotifText.absolute new_volume current_sink.description
             else NotifText.relative volume_change current_sink.description)
            (if notify_absolute then some (sink_id_file current_sink.index) else none)
            verbose
            (some (ratTrunc (100 / 2 * new_volume)))
         else [])
      else []

/-- Parsed command-line arguments after the `float()` conversion. -/
structure Args where
  volume_change : ℚ
  input_sinks_patterns : List SinkInputPattern
  default_to_sink : Bool
  filter_active : Bool
  dry_run : Bool
  verbose : Bool
  notify : Bool
  notify_absolute : Bool

/-- Stream selection performed in `main`: the priority-filtered list, then
either the first stream with sound (when `--filter-active`) or simply the
first filtered stream (`None` when the filtered list is empty). -/
def main_selected (pulse : PulseEnv) (args : Args) : Option PulseSinkInputInfo :=
  let sink_inputs_filtered := sink_inputs_filter pulse args.input_sinks_patterns
  if args.filter_active then sink_input_with_sound pulse sink_inputs_filtered
  else sink_inputs_filtered.head?

/-- Embedding of `main` (named `main_run` here because Lean reserves `main`):
filter, select, change volume. -/
def main_run (pulse : PulseEnv) (gi : Bool) (fs : String → Option String)
    (new_id : Int) (args : Args) : List Effect :=
  change_volume pulse gi fs new_id args.volume_change (main_selected pulse args)
    args.default_to_sink args.notify args.notify_absolute args.verbose args.dry_run

/-- Python `float(s)` on the volume argument, modelled over the rationals:
optional surrounding whitespace, optional sign, a mantissa of decimal digits
with an optional decimal point (at least one digit overall), and an optional
exponent part.  (The special values `inf`/`nan` and digit-group underscores
accepted by Python are not modelled.)  Helper: the mantissa. -/
def parseMantissa (cs : List Char) : Option ℚ :=
  let ip := cs.takeWhile Char.isDigit
  match cs.dropWhile Char.isDigit with
  | [] => if ip.isEmpty then none else some ((digitsToNat ip : ℚ))
  | '.' :: rest2 =>
      if rest2.all Char.isDigit ∧ (ip ≠ [] ∨ rest2 ≠ []) then
        some ((digitsToNat ip : ℚ) + (digitsToNat rest2 : ℚ) / 10 ^ rest2.length)
      else none
  | _ => none

/-- Exponent part after `e`/`E`: optional sign and digits. -/
def parseExponent (cs : List Char) : Option Int :=
  match cs with
  | '-' :: rest => (digitsToNatOpt rest).map (fun n => -(n : Int))
  | '+' :: rest => (digitsToNatOpt rest).map (fun n => (n : Int))
  | rest => (digitsToNatOpt rest).map (fun n => (n : Int))

def parsePyFloat (s : String) : Option ℚ :=
  let cs0 := trimChars s.toList
  let sign : Bool :=
    match cs0 with
    | '-' :: _ => true
    | _ => false
  let cs :=
    match cs0 with
    | '-' :: rest => rest
    | '+' :: rest => rest
    | rest => rest
  let mant := cs.takeWhile (fun c => c != 'e' && c != 'E')
  let expPart :=
    match cs.dropWhile (fun c => c != 'e' && c != 'E') with
    | [] => none
    | _ :: rest => some rest
  match parseMantissa mant, expPart with
  | some m, none => some (if sign then -m else m)
  | some m, some ecs =>
      match parseExponent ecs with
      | some e =>
          let v := if 0 ≤ e then m * 10 ^ e.toNat else m / 10 ^ (-e).toNat
          some (if sign then -v else v)
      | none => none
  | none, _ => none

/-- Message printed by the `__main__` block when `float()` raises. -/
def volume_arg_error_message : String :=
  "volume_change needs to be a number between -1 and 1"

/-- Embedding of the `__main__` block after argument parsing: convert the
volume argument with `float()`; on `ValueError` print the message and exit
with code 1 (modelled as `Except.error (1, msg)`, produced before any use of
the PulseAudio connection), otherwise run `main`. -/
def run_program (pulse : PulseEnv) (gi : Bool) (fs : String → Option String)
    (new_id : Int) (volume_change_arg : String)
    (input_sinks_patterns : List SinkInputPattern)
    (default_to_sink filter_active dry_run verbose notify_flag notify_absolute : Bool) :
    Except (Nat × String) (List Effect) :=
  match parsePyFloat volume_change_arg with
  | none => Except.error (1, volume_arg_error_message)
  | some v =>
      Except.ok (main_run pulse gi fs new_id
        ⟨v, input_sinks_patterns, default_to_sink, filter_active, dry_run, verbose,
         notify_flag, notify_absolute⟩)

/-- Volume-setting effects among a list of effects. -/
def isVolumeSet : Effect → Bool
  | Effect.setSinkInputVolume _ _ => true
  | Effect.setSinkVolume _ _ => true
  | _ => false

def volume_set_effects (l : List Effect) : List Effect := l.filter isVolumeSet

lemma read_id_no_volume_set (fs : String → Option String) (f? : Option String) :
    ((read_notification_id fs f?).2).filter isVolumeSet = [] := by
  cases f? with
  | none => rfl
  | some f =>
      cases hfs : fs f with
      | none => simp [read_notification_id, hfs]
      | some c =>
          cases hp : parsePyInt c with
          | none => simp [read_notification_id, hfs, hp, isVolumeSet]
          | some i => simp [read_notification_id, hfs, hp]

lemma notify_no_volume_set (gi : Bool) (fs : String → Option String) (new_id : Int)
    (title : String) (text : NotifText) (f? : Option String) (verbose : Bool)
    (progress : Option Int) :
    (notify gi fs new_id title text f? verbose progress).filter isVolumeSet = [] := by
  cases gi with
  | false => rfl
  | true =>
      simp only [notify, Bool.true_eq_false, if_false, List.filter_append]
      rw [read_id_no_volume_set]
      cases verbose <;> cases f? <;> simp [isVolumeSet]

lemma volume_set_effects_change_volume (pulse : PulseEnv) (gi : Bool)
    (fs : String → Option String) (new_id : Int) (volume_change : ℚ)
    (sink_input : Option PulseSinkInputInfo)
    (default_to_sink notify_ notify_absolute verbose dry : Bool) :
    volume_set_effects
        (change_volume pulse gi fs new_id volume_change sink_input default_to_sink
          notify_ notify_absolute verbose dry) =
      if dry then []
      else
        match sink_input with
        | some si => [Effect.setSinkInputVolume si.index (si.volume + volume_change)]
        | none =>
            if default_to_sink then
              [Effect.setSinkVolume (pulse.get_sink_by_name pulse.default_sink_name).index
                ((pulse.get_sink_by_name pulse.default_sink_name).volume + volume_change)]
            else [] := by
  cases sink_input with
  | some si =>
      simp only [change_volume, volume_set_effects, List.filter_append]
      rw [show ((if notify_ then
            notify gi fs new_id "Sink Input Volume"
              (if notify_absolute then
                NotifText.absolute (si.volume + volume_change) (pulse.client_name si.client)
               else NotifText.relative volume_change (pulse.client_name si.client))
              (if notify_absolute then some (sink_input_id_file si.index) else none)
              verbose (some (ratTrunc (100 / 2 * (si.volume + volume_change))))
          else []).filter isVolumeSet) = [] from by
        cases notify_ <;> simp [notify_no_volume_set]]
      cases dry <;> cases verbose <;> simp [isVolumeSet]
  | none =>
      cases default_to_sink with
      | false => cases dry <;> rfl
      | true =>
          simp only [change_volume, volume_set_effects, List.filter_append, if_true]
          rw [show ((if notify_ then
                notify gi fs new_id "Sink Volume"
                  (if notify_absolute then
                    NotifText.absolute
                      ((pulse.get_sink_by_name pulse.default_sink_name).volume + volume_change)
                      (pulse.get_sink_by_name pulse.default_sink_name).description
                   else NotifText.relative volume_change
                      (pulse.get_sink_by_name pulse.default_sink_name).description)
                  (if notify_absolute then
                    some (sink_id_file (pulse.get_sink_by_name pulse.default_sink_name).index)
                   else none)
                  verbose
                  (some (ratTrunc (100 / 2 *
                    ((pulse.get_sink_by_name pulse.default_sink_name).volume + volume_change))))
              else []).filter isVolumeSet) = [] from by
            cases notify_ <;> simp [notify_no_volume_set]]
          cases dry <;> cases verbose <;> simp [isVolumeSet]

/-- C2: the volume adjustment is relative, never absolute: with a selected
stream (and `dry` false) the first effect is setting that stream's volume to
its old volume plus the delta, and in the device-fallback case the first
effect is setting the default sink's volume to its old volume plus the
delta. -/
theorem change_volume_is_relative (pulse : PulseEnv) (gi : Bool)
    (fs : String → Option String) (new_id : Int) (volume_change : ℚ)
    (si : PulseSinkInputInfo) (default_to_sink notify_ notify_absolute verbose : Bool) :
    (change_volume pulse gi fs new_id volume_change (some si) default_to_sink
        notify_ notify_absolute verbose false).head? =
      some (Effect.setSinkInputVolume si.index (si.volume + volume_change)) ∧
    (change_volume pulse gi fs new_id volume_change none true
        notify_ notify_absolute verbose false).head? =
      some (Effect.setSinkVolume (pulse.get_sink_by_name pulse.default_sink_name).index
        ((pulse.get_sink_by_name pulse.default_sink_name).volume + volume_change)) := by
  constructor <;> simp [change_volume]

lemma sink_input_with_sound_eq_find (pulse : PulseEnv)
    (hpos : ∀ i, 0 ≤ pulse.get_peak_sample (9 / 100) i) :
    ∀ l : List PulseSinkInputInfo,
      sink_input_with_sound pulse l =
        l.find? (fun s => !s.corked &&
          decide (0 < pulse.get_peak_sample (9 / 100) s.index)) := by
  intro l
  induction l with
  | nil => rfl
  | cons s rest ih =>
      have hiff : (pulse.get_peak_sample (9 / 100) s.index ≠ 0) ↔
          (0 < pulse.get_peak_sample (9 / 100) s.index) :=
        ⟨fun h => lt_of_le_of_ne (hpos s.index) (Ne.symm h),
         fun h => ne_of_gt h⟩
      cases hc : s.corked with
      | true =>
          rw [sink_input_with_sound]
          simp [hc, ih, List.find?]
      | false =>
          by_cases h0 : 0 < pulse.get_peak_sample (9 / 100) s.index
          · rw [sink_input_with_sound]
            simp [hc, hiff.2 h0, List.find?, h0]
          · rw [sink_input_with_sound]
            have hz : ¬ pulse.get_peak_sample (9 / 100) s.index ≠ 0 := by
              intro h; exact h0 (hiff.1 h)
            simp [hc, hz, ih, List.find?, h0]

/-- C3: with active-stream filtering enabled, the stream chosen in `main` is
the first stream of the priority-filtered list that is not corked and whose
peak-sample probe over the fixed sampling window is positive; corked or
silent streams are skipped and if no stream qualifies no stream is selected.
The hypothesis records that peak samples are nonnegative, under which the
code's truthiness test (sample nonzero) coincides with positivity. -/
theorem active_filtering_picks_first_audible (pulse : PulseEnv) (args : Args)
    (hactive : args.filter_active = true)
    (hpos : ∀ i, 0 ≤ pulse.get_peak_sample (9 / 100) i) :
    main_selected pulse args =
      (sink_inputs_filter pulse args.input_sinks_patterns).find?
        (fun s => !s.corked && decide (0 < pulse.get_peak_sample (9 / 100) s.index)) := by
  unfold main_selected
  rw [hactive]
  simp only [if_true]
  exact sink_input_with_sound_eq_find pulse hpos _

/-- C4: with no selected stream, the delta is applied to the default sink iff
the fallback flag is set: with the flag unset `change_volume` produces no
effects at all (for any `dry`), and with the flag set (and `dry` false) its
volume-setting effects are exactly one relative adjustment of the default
sink. -/
theorem no_stream_fallback_iff_flag (pulse : PulseEnv) (gi : Bool)
    (fs : String → Option String) (new_id : Int) (volume_change : ℚ)
    (notify_ notify_absolute verbose dry : Bool) :
    change_volume pulse gi fs new_id volume_change none false
        notify_ notify_absolute verbose dry = [] ∧
    volume_set_effects (change_volume pulse gi fs new_id volume_change none true
        notify_ notify_absolute verbose false) =
      [Effect.setSinkVolume (pulse.get_sink_by_name pulse.default_sink_name).index
        ((pulse.get_sink_by_name pulse.default_sink_name).volume + volume_change)] := by
  constructor
  · rfl
  · rw [volume_set_effects_change_volume]
    simp

/-- C9: with the dry-run flag set, `change_volume` performs no volume-setting
effects, and all its other effects (verbose print, notification effects, the
computed new volume inside them) are exactly those of the corresponding
non-dry run. -/
theorem change_volume_dry_run_frame (pulse : PulseEnv) (gi : Bool)
    (fs : String → Option String) (new_id : Int) (volume_change : ℚ)
    (sink_input : Option PulseSinkInputInfo)
    (default_to_sink notify_ notify_absolute verbose : Bool) :
    volume_set_effects (change_volume pulse gi fs new_id volume_change sink_input
        default_to_sink notify_ notify_absolute verbose true) = [] ∧
    (change_volume pulse gi fs new_id volume_change sink_input default_to_sink
        notify_ notify_absolute verbose true).filter (fun e => !isVolumeSet e) =
      (change_volume pulse gi fs new_id volume_change sink_input default_to_sink
        notify_ notify_absolute verbose false).filter (fun e => !isVolumeSet e) := by
  constructor
  · rw [volume_set_effects_change_volume]; simp
  · cases sink_input with
    | some si => simp [change_volume, List.filter_append, isVolumeSet]
    | none =>
        cases default_to_sink with
        | false => rfl
        | true => simp [change_volume, List.filter_append, isVolumeSet]

/-- C5: a volume argument that does not parse as a number makes the program
print the error message and terminate with exit code 1 before any use of the
PulseAudio connection (the `Except.error` branch is taken before `main` runs
and carries no effects); a numeric argument proceeds into `main` with the
parsed value. -/
theorem nonnumeric_volume_arg_exits (pulse : PulseEnv) (gi : Bool)
    (fs : String → Option String) (new_id : Int) (arg : String)
    (patterns : List SinkInputPattern)
    (default_to_sink filter_active dry_run verbose notify_flag notify_absolute : Bool) :
    (parsePyFloat arg = none →
      run_program pulse gi fs new_id arg patterns default_to_sink filter_active
          dry_run verbose notify_flag notify_absolute =
        Except.error (1, volume_arg_error_message)) ∧
    (∀ v : ℚ, parsePyFloat arg = some v →
      run_program pulse gi fs new_id arg patterns default_to_sink filter_active
          dry_run verbose notify_flag notify_absolute =
        Except.ok (main_run pulse gi fs new_id
          ⟨v, patterns, default_to_sink, filter_active, dry_run, verbose,
           notify_flag, notify_absolute⟩)) := by
  constructor
  · intro h; simp [run_program, h]
  · intro v h; simp [run_program, h]

/-- C6: if the notification-id file exists but its contents do not parse as
an integer, `notify` logs the malformation to stderr and proceeds with no
known notification id: it shows a fresh notification (no id property set)
and then stores the newly assigned id; the `ValueError` is caught inside
`notify` and never reaches the caller (the embedding is a total function
returning this effect list). -/
theorem malformed_id_file_ignored (fs : String → Option String) (new_id : Int)
    (title : String) (text : NotifText) (f : String) (c : String)
    (progress : Option Int) (hfs : fs f = some c) (hp : parsePyInt c = none) :
    notify true fs new_id title text (some f) false progress =
      [Effect.printErr ("notification id file malformated: " ++ f),
       Effect.showNotification none title text
         (if optIntTruthy progress then progress else none),
       Effect.writeFile f (toString new_id)] := by
  simp [notify, read_notification_id, hfs, hp, optIntTruthy]

/-- C7: if the desktop notification library is absent, `notify` only prints
a warning and returns (first conjunct); the volume-setting effects of
`change_volume` do not depend on the notification library, the filesystem,
the assigned notification id, or the notification flags (second conjunct);
and with a selected stream the volume-set call is the first effect, before
any notification attempt (third conjunct). -/
theorem missing_notification_library_graceful (pulse : PulseEnv) (gi2 : Bool)
    (fs fs2 : String → Option String) (new_id new_id2 : Int) (volume_change : ℚ)
    (sink_input : Option PulseSinkInputInfo) (si : PulseSinkInputInfo)
    (default_to_sink notify_absolute notify_absolute2 verbose dry : Bool)
    (title : String) (text : NotifText) (f? : Option String) (vrb2 : Bool)
    (progress : Option Int) :
    notify false fs new_id title text f? vrb2 progress =
      [Effect.printErr notifyWarnMsg] ∧
    volume_set_effects (change_volume pulse false fs new_id volume_change sink_input
        default_to_sink true notify_absolute verbose dry) =
      volume_set_effects (change_volume pulse gi2 fs2 new_id2 volume_change sink_input
        default_to_sink false notify_absolute2 verbose dry) ∧
    (change_volume pulse false fs new_id volume_change (some si) default_to_sink
        true notify_absolute verbose false).head? =
      some (Effect.setSinkInputVolume si.index (si.volume + volume_change)) := by
  refine ⟨rfl, ?_, ?_⟩
  · rw [volume_set_effects_change_volume, volume_set_effects_change_volume]
  · simp [change_volume]

/-- Concrete sample environment used by the witness and counterexample
theorems. -/
def pulse0 : PulseEnv where
  sink_input_list := [⟨1, 1, false, 1/2⟩, ⟨2, 2, false, 1/2⟩]
  client_name := fun c => if c = 1 then "music" else "video"
  get_peak_sample := fun _ _ => 1
  default_sink_name := "default"
  get_sink_by_name := fun _ => ⟨0, "Speakers", 1/2⟩

/-- Concrete sample sink input. -/
def s0 : PulseSinkInputInfo := ⟨3, 1, false, 1/2⟩

/-- Filesystem with no files. -/
def fsEmpty : String → Option String := fun _ => none

/-- Filesystem holding the id 7 in both sample notification-id files. -/
def fsIds : String → Option String := fun f =>
  if f = sink_input_id_file 3 then some "7"
  else if f = sink_id_file 0 then some "7" else none

/-- C8 counterexample: a notification is shown (with `--notify` but without
`--notify-absolute`) while no side file is involved at all: the effect list
contains a notification and no file write, and the id-file argument passed to
`notify` was `None`.  This contradicts the claim that a side file stores the
notification identifier whenever a notification is shown. -/
theorem notification_without_side_file_cx :
    Effect.showNotification none "Sink Input Volume"
        (NotifText.relative (1/10) "music") (some 30) ∈
      change_volume pulse0 true fsEmpty 7 (1/10) (some s0) false true false false false ∧
    ∀ f c, Effect.writeFile f c ∉
      change_volume pulse0 true fsEmpty 7 (1/10) (some s0) false true false false false := by
  have heq : change_volume pulse0 true fsEmpty 7 (1/10) (some s0) false true false false false =
      [Effect.setSinkInputVolume 3 (3/5),
       Effect.showNotification none "Sink Input Volume"
         (NotifText.relative (1/10) "music") (some 30)] := by
    have hv : (1:ℚ)/2 + 1/10 = 3/5 := by norm_num
    have hm : (100:ℚ) / 2 * (3/5) = 30 := by norm_num
    have hp : ratTrunc (30 : ℚ) = 30 := by
      simp [ratTrunc, Rat.num_ofNat, Rat.den_ofNat]
    simp [change_volume, notify, read_notification_id, fsEmpty, optIntTruthy,
      pulse0, s0, hv, hm, hp]
    have h30 : (100:ℚ)/2 * (2⁻¹ + 10⁻¹) = 30 := by norm_num
    rw [h30, hp]
    norm_num
  rw [heq]
  constructor
  · simp
  · intro f c h
    simp at h

/-- C8 amended: whenever a notification is shown with absolute-volume display
enabled (`--notify-absolute`, which is when a side-file path is supplied at
all), the side file at the fixed temporary path determined by the adjusted
stream's or device's index stores the notification identifier as plain text
when none was previously known, and a later invocation for the same
stream/device that reads a stored (nonzero) identifier shows the notification
with that id set, updating the existing notification instead of creating a
new one (and writes no file).  Conjuncts: stream first run, stream update
run, device first run, device update run. -/
theorem side_file_enables_notification_update (pulse : PulseEnv)
    (fs fs2 : String → Option String) (new_id new_id2 : Int) (volume_change : ℚ)
    (si : PulseSinkInputInfo) (default_to_sink default_to_sink2 : Bool)
    (c : String) (id : Int) :
    (fs (sink_input_id_file si.index) = none →
      Effect.writeFile (sink_input_id_file si.index) (toString new_id) ∈
        change_volume pulse true fs new_id volume_change (some si) default_to_sink
          true true false false) ∧
    (fs2 (sink_input_id_file si.index) = some c → parsePyInt c = some id → id ≠ 0 →
      (Effect.showNotification (some id) "Sink Input Volume"
          (NotifText.absolute (si.volume + volume_change) (pulse.client_name si.client))
          (if optIntTruthy (some (ratTrunc (100 / 2 * (si.volume + volume_change)))) then
            some (ratTrunc (100 / 2 * (si.volume + volume_change))) else none) ∈
        change_volume pulse true fs2 new_id2 volume_change (some si) default_to_sink2
          true true false false) ∧
      (∀ f c2, Effect.writeFile f c2 ∉
        change_volume pulse true fs2 new_id2 volume_change (some si) default_to_sink2
          true true false false)) ∧
    (fs (sink_id_file (pulse.get_sink_by_name pulse.default_sink_name).index) = none →
      Effect.writeFile (sink_id_file (pulse.get_sink_by_name pulse.default_sink_name).index)
          (toString new_id) ∈
        change_volume pulse true fs new_id volume_change none true true true false false) ∧
    (fs2 (sink_id_file (pulse.get_sink_by_name pulse.default_sink_name).index) = some c →
      parsePyInt c = some id → id ≠ 0 →
      (Effect.showNotification (some id) "Sink Volume"
          (NotifText.absolute
            ((pulse.get_sink_by_name pulse.default_sink_name).volume + volume_change)
            (pulse.get_sink_by_name pulse.default_sink_name).description)
          (if optIntTruthy (some (ratTrunc (100 / 2 *
              ((pulse.get_sink_by_name pulse.default_sink_name).volume + volume_change)))) then
            some (ratTrunc (100 / 2 *
              ((pulse.get_sink_by_name pulse.default_sink_name).volume + volume_change)))
           else none) ∈
        change_volume pulse true fs2 new_id2 volume_change none true true true false false) ∧
      (∀ f c2, Effect.writeFile f c2 ∉
        change_volume pulse true fs2 new_id2 volume_change none true true true false false)) := by
  refine ⟨?_, ?_, ?_, ?_⟩
  · intro h1
    simp [change_volume, notify, read_notification_id, h1, optIntTruthy]
  · intro h2 h3 h4
    have hb : (id != 0) = true := by simp [bne_iff_ne]; exact h4
    constructor
    · simp [change_volume, notify, read_notification_id, h2, h3, optIntTruthy, hb]
    · intro f c2 hmem
      simp [change_volume, notify, read_notification_id, h2, h3, optIntTruthy, hb] at hmem
  · intro h5
    simp [change_volume, notify, read_notification_id, h5, optIntTruthy]
  · intro h6 h7 h8
    have hb : (id != 0) = true := by simp [bne_iff_ne]; exact h8
    constructor
    · simp [change_volume, notify, read_notification_id, h6, h7, optIntTruthy, hb]
    · intro f c2 hmem
      simp [change_volume, notify, read_notification_id, h6, h7, optIntTruthy, hb] at hmem

/-- Concrete sample arguments with active-stream filtering enabled. -/
def args0 : Args := ⟨1/10, [fun _ => true], false, true, false, false, false, false⟩

/-- Filesystem whose every file holds non-numeric text. -/
def fsBad : String → Option String := fun _ => some "xy"

/-- Witness for C3 at the concrete environment `pulse0` and args `args0`. -/
theorem active_filtering_picks_first_audible_witness :
    main_selected pulse0 args0 =
      (sink_inputs_filter pulse0 args0.input_sinks_patterns).find?
        (fun s => !s.corked && decide (0 < pulse0.get_peak_sample (9 / 100) s.index)) :=
  active_filtering_picks_first_audible pulse0 args0 rfl (fun _ => zero_le_one)

/-- Witness for C5 at the concrete arguments `"abc"` (non-numeric) and `"2"`
(numeric). -/
theorem nonnumeric_volume_arg_exits_witness :
    run_program pulse0 true fsEmpty 7 "abc" [] false false false false false false =
      Except.error (1, volume_arg_error_message) ∧
    run_program pulse0 true fsEmpty 7 "2" [] false false false false false false =
      Except.ok (main_run pulse0 true fsEmpty 7
        ⟨2, [], false, false, false, false, false, false⟩) :=
  ⟨(nonnumeric_volume_arg_exits pulse0 true fsEmpty 7 "abc" [] false false false
      false false false).1 (by decide),
   (nonnumeric_volume_arg_exits pulse0 true fsEmpty 7 "2" [] false false false
      false false false).2 2 (by decide)⟩

/-- Witness for C6 at a concrete filesystem whose id file holds `"xy"`. -/
theorem malformed_id_file_ignored_witness :
    notify true fsBad 7 "Sink Input Volume" (NotifText.relative 1 "music")
        (some "/tmp/f") false none =
      [Effect.printErr ("notification id file malformated: " ++ "/tmp/f"),
       Effect.showNotification none "Sink Input Volume" (NotifText.relative 1 "music") none,
       Effect.writeFile "/tmp/f" (toString (7 : Int))] :=
  malformed_id_file_ignored fsBad 7 "Sink Input Volume" (NotifText.relative 1 "music")
    "/tmp/f" "xy" none rfl (by decide)

/-- Witness for the amended C8: first runs on an empty filesystem write the
id file for stream index 3 and for sink index 0; later runs on a filesystem
holding id 7 in those files show an updating notification and write nothing. -/
theorem side_file_enables_notification_update_witness :
    Effect.writeFile (sink_input_id_file s0.index) (toString (7 : Int)) ∈
      change_volume pulse0 true fsEmpty 7 (1/10) (some s0) false true true false false ∧
    Effect.showNotification (some 7) "Sink Input Volume"
        (NotifText.absolute (s0.volume + 1/10) (pulse0.client_name s0.client))
        (if optIntTruthy (some (ratTrunc (100 / 2 * (s0.volume + 1/10)))) then
          some (ratTrunc (100 / 2 * (s0.volume + 1/10))) else none) ∈
      change_volume pulse0 true fsIds 9 (1/10) (some s0) false true true false false ∧
    Effect.writeFile "f" "c" ∉
      change_volume pulse0 true fsIds 9 (1/10) (some s0) false true true false false ∧
    Effect.writeFile (sink_id_file (pulse0.get_sink_by_name pulse0.default_sink_name).index)
        (toString (7 : Int)) ∈
      change_volume pulse0 true fsEmpty 7 (1/10) none true true true false false ∧
    Effect.showNotification (some 7) "Sink Volume"
        (NotifText.absolute ((pulse0.get_sink_by_name pulse0.default_sink_name).volume + 1/10)
          (pulse0.get_sink_by_name pulse0.default_sink_name).description)
        (if optIntTruthy (some (ratTrunc (100 / 2 *
            ((pulse0.get_sink_by_name pulse0.default_sink_name).volume + 1/10)))) then
          some (ratTrunc (100 / 2 *
            ((pulse0.get_sink_by_name pulse0.default_sink_name).volume + 1/10)))
         else none) ∈
      change_volume pulse0 true fsIds 9 (1/10) none true true true false false ∧
    Effect.writeFile "f" "c" ∉
      change_volume pulse0 true fsIds 9 (1/10) none true true true false false := by
  have T := side_file_enables_notification_update pulse0 fsEmpty fsIds 7 9 (1/10) s0
    false false "7" 7
  exact ⟨T.1 rfl,
         (T.2.1 (by decide) (by decide) (by decide)).1,
         (T.2.1 (by decide) (by decide) (by decide)).2 "f" "c",
         T.2.2.1 rfl,
         (T.2.2.2 (by decide) (by decide) (by decide)).1,
         (T.2.2.2 (by decide) (by decide) (by decide)).2 "f" "c"⟩

/-- Witness for C10 at the concrete environment `pulse0`, with a stream whose
client name matches both supplied patterns. -/
theorem sink_inputs_filter_nodup_witness :
    (sink_inputs_filter pulse0 [fun n => n == "music", fun _ => true]).Nodup :=
  sink_inputs_filter_nodup pulse0 [fun n => n == "music", fun _ => true] (by decide)
